import Mathlib

/-!
Verification development for the `predictably` base-class framework.

Part 1 embeds the global configuration subsystem of
`predictably/_config.py` and `predictably/_config_param_setting.py`:
the registry of `GlobalConfigParamSetting`s, the process-wide shared
mapping `global_config`, the lazily-cloned thread-local mapping, and the
operations `get_config`, `set_config` and `config_context`.

Part 2 embeds the object protocol of `predictably/_core/_base.py`
(`BaseObject` / `BaseEstimator`): `get_params`, `set_params`, `reset`,
the class-level flag merge `_get_class_flags`, the dynamic flag
overrides, and the attrs-generated value equality.

Python values that appear as configuration values are modelled by
`PyVal`; Python `None` (the "unset" sentinel) is modelled by `Option`.
A warning emission is modelled by counting warnings (each call to
`warnings.warn` adds one).
-/

namespace Predictably

/-- A Python runtime value usable as a global configuration value.
Only strings and booleans occur in the registry; an invalid candidate of
the wrong runtime type is representable (e.g. the string "False" offered
for the boolean parameter `print_changed_only`). -/
inductive PyVal where
  | str (s : String)
  | bool (b : Bool)
deriving DecidableEq, Repr

/-- The runtime types appearing as `expected_type` in the registry. -/
inductive PyType where
  | str
  | bool
deriving DecidableEq, Repr

/-- `isinstance(value, expected_type)` for the modelled value universe. -/
def PyVal.isInstance : PyVal → PyType → Bool
  | .str _, .str => true
  | .bool _, .bool => true
  | _, _ => false

/-- `GlobalConfigParamSetting` from `predictably/_config_param_setting.py`:
name, expected type, optional allowed values, default value. -/
structure GlobalConfigParamSetting where
  name : String
  expected_type : PyType
  allowed_values : Option (List PyVal)
  default_value : PyVal
deriving DecidableEq, Repr

/-- `GlobalConfigParamSetting.is_valid_param_value`: the candidate must be an
instance of `expected_type` and, when `allowed_values` is not `None`, a
member of the allowed values. -/
def GlobalConfigParamSetting.is_valid_param_value
    (s : GlobalConfigParamSetting) (value : PyVal) : Bool :=
  if !(value.isInstance s.expected_type)
      || (match s.allowed_values with
          | some allowed => !(allowed.contains value)
          | none => false) then
    false
  else
    true

/-- `GlobalConfigParamSetting.get_valid_param_or_default`: return the value
unchanged when valid; otherwise emit one `UserWarning` and return the
supplied fallback (`default_value` argument) when that is not `None`, else
the setting's own `default_value`.  The second component counts the
warnings emitted by the call. -/
def GlobalConfigParamSetting.get_valid_param_or_default
    (s : GlobalConfigParamSetting) (value : PyVal)
    (default_value : Option PyVal) : PyVal × Nat :=
  if s.is_valid_param_value value then
    (value, 0)
  else
    (default_value.getD s.default_value, 1)

/-- The four registered global configuration keys (`_CONFIG_REGISTRY`). -/
inductive ConfigKey where
  | dataframe_backend
  | math_backend
  | print_changed_only
  | display
deriving DecidableEq, Repr

/-- `_CONFIG_REGISTRY` from `predictably/_config.py`. -/
def CONFIG_REGISTRY : ConfigKey → GlobalConfigParamSetting
  | .dataframe_backend =>
      ⟨"dataframe_backend", .str,
        some [.str "polars", .str "pandas", .str "fugue", .str "input"],
        .str "polars"⟩
  | .math_backend =>
      ⟨"math_backend", .str,
        some [.str "predictably", .str "numba", .str "numpy"],
        .str "predictably"⟩
  | .print_changed_only =>
      ⟨"print_changed_only", .bool,
        some [.bool true, .bool false],
        .bool true⟩
  | .display =>
      ⟨"display", .str,
        some [.str "text", .str "diagram"],
        .str "text"⟩

/-- A configuration mapping: one value per registered key.  All the
mappings of `_config.py` (`_GLOBAL_CONFIG_DEFAULT`, `global_config`, the
thread-local mapping) have exactly the registry's keys. -/
def Config : Type := ConfigKey → PyVal

/-- `_GLOBAL_CONFIG_DEFAULT`: each key's registered default value. -/
def GLOBAL_CONFIG_DEFAULT : Config := fun k => (CONFIG_REGISTRY k).default_value

/-- Pointwise update of a configuration mapping at one key
(`local_config[param_name] = value`). -/
def Config.setKey (c : Config) (k : ConfigKey) (v : PyVal) : Config :=
  fun k' => if k' = k then v else c k'

/-- The mutable configuration state seen from one thread:
`globalConfig` is the process-wide shared mapping `global_config`;
`threadLocal` is this thread's `_THREAD_LOCAL_DATA.global_config`
(`none` while the thread has not yet cloned the shared mapping). -/
structure ConfigState where
  globalConfig : Config
  threadLocal : Option Config

/-- `_get_threadlocal_config`: the thread-local mapping, cloned from the
shared mapping on first access.  Pure read of the resulting mapping. -/
def _get_threadlocal_config (st : ConfigState) : Config :=
  st.threadLocal.getD st.globalConfig

/-- `get_config()` as a pure read: a copy of the thread-local mapping
(cloning from the shared mapping first when absent). -/
def currentConfig (st : ConfigState) : Config :=
  _get_threadlocal_config st

/-- One `if param is not None:` block of `set_config`: when the candidate
for key `k` is supplied, validate it with
`get_valid_param_or_default(param, default_value=local_config[param_name])`
and write the result into the local mapping, accumulating warnings. -/
def applyUpdate (acc : Config × Nat) (k : ConfigKey) (cand : Option PyVal) :
    Config × Nat :=
  match cand with
  | none => acc
  | some v =>
      let r := (CONFIG_REGISTRY k).get_valid_param_or_default v (some (acc.1 k))
      (acc.1.setKey k r.1, acc.2 + r.2)

/-- `set_config` from `predictably/_config.py`.  `upd` gives, per key, the
keyword argument supplied (`none` models Python `None`, the unset
sentinel).  The four keys are processed in source order; afterwards, when
`local_threadsafe` is false, `global_config.update(local_config)` writes
the entire thread-local mapping into the shared mapping (both mappings
have exactly the registry's keys, so the shared mapping becomes a copy of
the thread-local one).  Returns the new state and the number of warnings
emitted. -/
def set_config (st : ConfigState) (upd : ConfigKey → Option PyVal)
    (local_threadsafe : Bool) : ConfigState × Nat :=
  let local0 := _get_threadlocal_config st
  let s1 := applyUpdate (local0, 0) .dataframe_backend (upd .dataframe_backend)
  let s2 := applyUpdate s1 .math_backend (upd .math_backend)
  let s3 := applyUpdate s2 .print_changed_only (upd .print_changed_only)
  let s4 := applyUpdate s3 .display (upd .display)
  let newGlobal := if local_threadsafe then st.globalConfig else s4.1
  (⟨newGlobal, some s4.1⟩, s4.2)

/-- An update supplying a single key (all other keyword args `None`). -/
def singleUpdate (k : ConfigKey) (v : PyVal) : ConfigKey → Option PyVal :=
  fun k' => if k' = k then some v else none

/-- `config_context` from `predictably/_config.py`, run to completion on a
guarded body.  `old_config = get_config()` is captured at entry (which
clones the thread-local mapping), `set_config(..., local_threadsafe)` is
applied, the body runs (it may transform the state arbitrarily and may
raise: the `Bool` it returns models whether an exception propagates), and
the `finally:` block calls `set_config(**old_config)` — supplying every
saved key and, since `old_config` holds only the four configuration keys,
leaving `local_threadsafe` at its default `False`.  Returns the final
state and the exception flag. -/
def config_context_run (st : ConfigState) (upd : ConfigKey → Option PyVal)
    (local_threadsafe : Bool) (body : ConfigState → ConfigState × Bool) :
    ConfigState × Bool :=
  let old_config := currentConfig st
  let st1 : ConfigState := ⟨st.globalConfig, some old_config⟩
  let st2 := (set_config st1 upd local_threadsafe).1
  let p := body st2
  let st4 := (set_config p.1 (fun k => some (old_config k)) false).1
  (st4, p.2)

/-!
Part 2: the object protocol of `predictably/_core/_base.py`.

Python objects live in a heap; `BaseObject` parameters may hold
references to other `BaseObject`s.  The heap is modelled by an
association list `Store` from addresses to object records, so "same
object identity" is "same address".  Instance attribute dictionaries,
class tag dictionaries and dynamic override dictionaries are modelled by
association lists with Python-dict update semantics (replace in place on
key collision, else append).
-/

/-- A Python attribute value in the object model: integers, strings,
booleans, and references to `BaseObject`s in the store. -/
inductive Val where
  | int (n : Int)
  | str (s : String)
  | bool (b : Bool)
  | obj (addr : Nat)
deriving DecidableEq, Repr

/-- First value stored under a key in an attribute/tag dictionary. -/
def lookupA : List (String × Val) → String → Option Val
  | [], _ => none
  | (k', v) :: rest, k => if k' = k then some v else lookupA rest k

/-- Python-dict single-key write: replace the value in place when the key
is present, else append the new pair. -/
def setA : List (String × Val) → String → Val → List (String × Val)
  | [], k, v => [(k, v)]
  | (k', v') :: rest, k, v =>
      if k' = k then (k', v) :: rest else (k', v') :: setA rest k v

/-- `dict.update`: write every pair of the second dictionary into the
first, in order. -/
def updateDict (d1 d2 : List (String × Val)) : List (String × Val) :=
  d2.foldl (fun acc kv => setA acc kv.1 kv.2) d1

/-- First-match lookup in the reversed dictionary, i.e. the value of the
last occurrence of the key.  For genuine (duplicate-free) dictionaries
this agrees with `lookupA`. -/
def lookupLast (d : List (String × Val)) (k : String) : Option Val :=
  lookupA d.reverse k

/-- `orElseO x y` is `x` when it holds a value, else `y`. -/
def orElseO : Option Val → Option Val → Option Val
  | some v, _ => some v
  | none, o => o

/-- `BaseObject._get_class_flags`: walk the type's method resolution
order from most-ancestral to most-derived (excluding `object`), merging
each class's declared flag dictionary into an accumulator with
`dict.update`, so derived entries overwrite ancestral entries.  The
chain argument is that reversed MRO of per-class flag dictionaries. -/
def _get_class_flags (chain : List (List (String × Val))) :
    List (String × Val) :=
  chain.foldl updateDict []

/-- Whether the string contains the double-underscore marker substring
(`"__" in attr`). -/
def containsDunderChars : List Char → Bool
  | '_' :: '_' :: _ => true
  | _ :: rest => containsDunderChars rest
  | [] => false

/-- `"__" in s` for strings. -/
def containsDunder (s : String) : Bool :=
  containsDunderChars s.data

/-- `key.partition("__")` on the character list: split at the first
occurrence of `"__"`, returning the prefix and the remainder when found. -/
def partitionDunderChars : List Char → Option (List Char × List Char)
  | '_' :: '_' :: rest => some ([], rest)
  | c :: rest =>
      match partitionDunderChars rest with
      | some (l, r) => some (c :: l, r)
      | none => none
  | [] => none

/-- `key.partition("__")`: `(top, some sub)` when the separator occurs,
else `(key, none)`. -/
def partitionDunder (s : String) : String × Option String :=
  match partitionDunderChars s.data with
  | some (l, r) => (String.mk l, some (String.mk r))
  | none => (s, none)

/-- The concrete `BaseObject` subclasses of the model: `Inner(x=...)`,
`Outer(inner=...)` (a composite holding an `Inner`), and the estimator
`Est(foo=...)`. -/
inductive ClassId where
  | inner
  | outer
  | est
deriving DecidableEq, Repr

/-- `_get_param_names`: the alphabetically sorted declared `__init__`
parameter names of each class. -/
def declaredParams : ClassId → List String
  | .inner => ["x"]
  | .outer => ["inner"]
  | .est => ["foo"]

/-- One `BaseObject` instance.  `attrs` is the user-visible instance
attribute dictionary (declared parameters and any derived attributes).
The attrs-managed bookkeeping fields `_tags_dynamic`, `_config_dynamic`
(both `init=False`, fresh empty dict on every `__init__`) and
`_is_fitted` (estimator flag, `init=False`, `eq=False`) are modelled as
separate record fields: they exist on every instance from construction
onward, exactly as on a freshly constructed object. -/
structure PyObject where
  cls : ClassId
  attrs : List (String × Val)
  tagsDynamic : List (String × Val)
  configDynamic : List (String × Val)
  isFitted : Bool
deriving DecidableEq, Repr

/-- The heap: addresses to object records. -/
def Store : Type := List (Nat × PyObject)

/-- Object stored at an address. -/
def storeGet : Store → Nat → Option PyObject
  | [], _ => none
  | (a', o) :: rest, a => if a' = a then some o else storeGet rest a

/-- Replace (or add) the object at an address. -/
def storeSet : Store → Nat → PyObject → Store
  | [], a, o => [(a, o)]
  | (a', o') :: rest, a, o =>
      if a' = a then (a', o) :: rest else (a', o') :: storeSet rest a o

/-- `setattr(self, name, value)` on the object at `a`. -/
def setAttrStore (store : Store) (a : Nat) (n : String) (v : Val) : Store :=
  match storeGet store a with
  | some o => storeSet store a ⟨o.cls, setA o.attrs n v, o.tagsDynamic,
      o.configDynamic, o.isFitted⟩
  | none => store

/-- `__init__(**params)` of the attrs-generated constructor: assign each
declared parameter to the attribute of the same name and reinitialize the
`init=False` fields (`_tags_dynamic = {}`, `_config_dynamic = {}`,
`_is_fitted = False`). -/
def mkInit (c : ClassId) (params : List (String × Val)) : PyObject :=
  ⟨c, params, [], [], false⟩

/-- Read the declared parameters from the instance attributes
(`{key: getattr(self, key) for key in parameters}`); `none` models the
`AttributeError` raised when a declared parameter was not stored under an
attribute of the same name. -/
def collectParams (attrs : List (String × Val)) :
    List String → Option (List (String × Val))
  | [] => some []
  | n :: rest =>
      match lookupA attrs n, collectParams attrs rest with
      | some v, some tl => some ((n, v) :: tl)
      | _, _ => none

/-- `BaseObject.get_params(deep=False)`: the declared parameter names of
the object's class, each read from the same-named instance attribute. -/
def getParamsShallow (store : Store) (a : Nat) :
    Option (List (String × Val)) :=
  match storeGet store a with
  | some o => collectParams o.attrs (declaredParams o.cls)
  | none => none

/-- `BaseObject.get_params(deep=True)`: the shallow parameters, then for
every parameter value that is itself a `BaseObject` (i.e. exposes
`get_params`), its own deep parameters flattened in under
`"{name}__{subname}"` keys via `params.update(deep_params)`; the
unflattened `name -> component` entry is kept.  `fuel` bounds the
component recursion depth (cyclic component graphs are undefined
behavior in the source). -/
def getParamsDeep : Nat → Store → Nat → Option (List (String × Val))
  | 0, _, _ => none
  | fuel + 1, store, a =>
      match getParamsShallow store a with
      | none => none
      | some shallow =>
          let deepStep := fun (acc : Option (List (String × Val)))
              (kv : String × Val) =>
            match acc with
            | none => none
            | some ds =>
                match kv.2 with
                | .obj b =>
                    match getParamsDeep fuel store b with
                    | some sub =>
                        some (ds ++ sub.map
                          (fun kv' => (kv.1 ++ "__" ++ kv'.1, kv'.2)))
                    | none => none
                | _ => some ds
          match shallow.foldl deepStep (some []) with
          | some deepParams => some (updateDict shallow deepParams)
          | none => none

/-- The `ValueError` message of `set_params` for an unknown parameter,
naming the offending key and the target instance (the instance's `%s`
interpolation is abstracted to its address). -/
def invalidParamMsg (top : String) (a : Nat) : String :=
  "Invalid parameter " ++ top ++ " for object at address " ++ toString a
    ++ ". Check the list of available parameters with `object.get_params().keys()`."

/-- `nested_params[key][sub_key] = value` on the `defaultdict(dict)` of
pending nested updates (group creation preserves first-occurrence
order). -/
def nestedAdd : List (String × List (String × Val)) → String → String →
    Val → List (String × List (String × Val))
  | [], top, sub, v => [(top, [(sub, v)])]
  | (t, g) :: rest, top, sub, v =>
      if t = top then (t, setA g sub v) :: rest
      else (t, g) :: nestedAdd rest top sub v

/-- The first loop of `set_params`: process the update pairs in order.
Each key is split at its first `"__"`; a key whose head is not among the
current valid parameters raises `ValueError` immediately (stopping the
loop, with all earlier direct assignments already applied); a nested key
is accumulated into its per-component group; a plain key is assigned
directly with `setattr` and recorded in `valid_params`. -/
def setParamsLoop (a : Nat) :
    Store → List (String × Val) → List (String × Val) →
    List (String × List (String × Val)) →
    Store × List (String × Val) × List (String × List (String × Val))
      × Option String
  | store, validParams, [], nested => (store, validParams, nested, none)
  | store, validParams, (key, value) :: rest, nested =>
      let p := partitionDunder key
      if (lookupA validParams p.1).isNone then
        (store, validParams, nested, some (invalidParamMsg p.1 a))
      else
        match p.2 with
        | some sub =>
            setParamsLoop a store validParams rest
              (nestedAdd nested p.1 sub value)
        | none =>
            setParamsLoop a (setAttrStore store a p.1 value)
              (setA validParams p.1 value) rest nested

/-- `BaseObject.reset`: capture `get_params(deep=False)`, delete every
instance attribute whose name has no `"__"` substring (class attributes
and methods are not instance attributes and are unaffected), and re-run
`__init__` with the captured parameters.  `none` models the
`AttributeError` from the parameter capture. -/
def resetObj (store : Store) (a : Nat) : Option Store :=
  match storeGet store a, getParamsShallow store a with
  | some o, some params =>
      let survivors := o.attrs.filter (fun kv => containsDunder kv.1)
      let fresh := mkInit o.cls params
      some (storeSet store a ⟨fresh.cls, fresh.attrs ++ survivors,
        fresh.tagsDynamic, fresh.configDynamic, fresh.isFitted⟩)
  | _, _ => none

/-- The recursion over pending nested groups at the end of `set_params`:
`valid_params[key].set_params(**sub_params)` for each group (with `setP`
the recursive `set_params` call), stopping at the first propagated error;
a non-`BaseObject` value raises `AttributeError` (no `set_params`
method). -/
def runGroups (setP : Store → Nat → List (String × Val) → Store × Option String)
    (valid : List (String × Val)) :
    Store → List (String × List (String × Val)) → Store × Option String
  | store, [] => (store, none)
  | store, (top, subs) :: rest =>
      match lookupA valid top with
      | some (.obj b) =>
          match setP store b subs with
          | (store', none) => runGroups setP valid store' rest
          | (store', some e) => (store', some e)
      | _ => (store, some "AttributeError: object has no attribute set_params")

/-- `BaseObject.set_params`: no-op on an empty update; otherwise take a
fresh `get_params(deep=True)` as the valid parameters, run the key loop
(direct assignments applied immediately, nested keys grouped, unknown
keys raising `ValueError` with earlier assignments kept), then
`self.reset()`, then recursively `set_params` on each pending component
group in order.  The `Option String` is the propagated error message;
`fuel` bounds the component recursion depth. -/
def set_params : Nat → Store → Nat → List (String × Val) →
    Store × Option String
  | _, store, _, [] => (store, none)
  | 0, store, _, _ => (store, some "recursion limit exceeded")
  | fuel + 1, store, a, updates =>
      match getParamsDeep (fuel + 1) store a with
      | none => (store, some "AttributeError: init parameter not assigned to attribute")
      | some valid0 =>
          match setParamsLoop a store valid0 updates [] with
          | (store1, _, _, some e) => (store1, some e)
          | (store1, valid1, nested, none) =>
              match resetObj store1 a with
              | none => (store1, some "AttributeError: init parameter not assigned to attribute")
              | some store2 =>
                  runGroups (fun s b u => set_params fuel s b u) valid1
                    store2 nested

/-- `BaseObject._set_flags(flag_attr_name="_tags", **tag_dict)` on the
object at `a`: deep-copy the update and merge it into the instance's
dynamic tag dictionary (created empty at construction). -/
def setTagsStore (store : Store) (a : Nat) (upd : List (String × Val)) :
    Store :=
  match storeGet store a with
  | some o => storeSet store a ⟨o.cls, o.attrs,
      updateDict o.tagsDynamic upd, o.configDynamic, o.isFitted⟩
  | none => store

/-- A mutating `fit` operation on the estimator at `a`: set the
`_is_fitted` flag and store a derived attribute `foo_` (derived state is
an ordinary instance attribute, not an attrs field). -/
def fitEst (store : Store) (a : Nat) : Store :=
  match storeGet store a with
  | some o => storeSet store a ⟨o.cls, setA o.attrs "foo_" (.bool true),
      o.tagsDynamic, o.configDynamic, true⟩
  | none => store

/-- Python `==` on dictionaries: equal key sets with pairwise-equal
values (`veq` compares the values, so that object-valued entries compare
by value). -/
def dictEqAux (veq : Val → Val → Bool) (d1 d2 : List (String × Val)) :
    Bool :=
  d1.all (fun kv =>
    match lookupA d2 kv.1 with
    | some v => veq kv.2 v
    | none => false)
  && d2.all (fun kv => (lookupA d1 kv.1).isSome)

/-- Python `==` on modelled values.  Primitive values compare by value;
two object references compare with the attrs-generated `__eq__` of
`BaseObject`/`BaseEstimator`: same concrete class, and pairwise `==` of
all attrs fields that participate in equality — the declared parameter
values, `_tags_dynamic` and `_config_dynamic` (both declared with
default `eq=True`) — while `_is_fitted` is declared with `eq=False` and
is not compared.  Non-field instance attributes (derived state) are not
compared.  `fuel` bounds recursion through object references. -/
def valEq (fuel : Nat) (store : Store) (x y : Val) : Bool :=
  match x, y with
  | .int a, .int b => a == b
  | .str a, .str b => a == b
  | .bool a, .bool b => a == b
  | .obj a, .obj b =>
      match fuel with
      | 0 => false
      | fuel' + 1 =>
          match storeGet store a, storeGet store b with
          | some oa, some ob =>
              oa.cls == ob.cls
              && (declaredParams oa.cls).all (fun n =>
                    match lookupA oa.attrs n, lookupA ob.attrs n with
                    | some va, some vb => valEq fuel' store va vb
                    | _, _ => false)
              && dictEqAux (fun u v => valEq fuel' store u v)
                    oa.tagsDynamic ob.tagsDynamic
              && dictEqAux (fun u v => valEq fuel' store u v)
                    oa.configDynamic ob.configDynamic
          | _, _ => false
  | _, _ => false

/-- The attrs-generated `__eq__` between the objects at two addresses. -/
def objEq (fuel : Nat) (store : Store) (a b : Nat) : Bool :=
  valEq fuel store (.obj a) (.obj b)

/-- `dictEqAux` at a given recursion depth. -/
def dictEq (fuel : Nat) (store : Store) (d1 d2 : List (String × Val)) :
    Bool :=
  dictEqAux (fun u v => valEq fuel store u v) d1 d2

/-!
Theorems.  Helper lemmas come first, then one theorem per claim (with a
witness theorem when the claim's theorem carries hypotheses, and a
counterexample theorem for corrected claims).
-/

theorem applyUpdate_at_other (acc : Config × Nat) (k k' : ConfigKey)
    (cand : Option PyVal) (h : k' ≠ k) :
    (applyUpdate acc k cand).1 k' = acc.1 k' := by
  cases cand <;> simp [applyUpdate, Config.setKey, h]

theorem applyUpdate_at_self (acc : Config × Nat) (k : ConfigKey)
    (cand : Option PyVal) :
    (applyUpdate acc k cand).1 k =
      (match cand with
       | none => acc.1 k
       | some v =>
           ((CONFIG_REGISTRY k).get_valid_param_or_default v
             (some (acc.1 k))).1) := by
  cases cand <;> simp [applyUpdate, Config.setKey]

/-- The thread-local mapping after `set_config`, read at one key: an
unsupplied key keeps the thread's prior current value; a supplied key
takes the validated-or-fallback value, with the fallback being the
thread's prior current value at that key. -/
theorem set_config_currentConfig_at (st : ConfigState)
    (upd : ConfigKey → Option PyVal) (lts : Bool) (k : ConfigKey) :
    currentConfig (set_config st upd lts).1 k =
      (match upd k with
       | none => currentConfig st k
       | some v =>
           ((CONFIG_REGISTRY k).get_valid_param_or_default v
             (some (currentConfig st k))).1) := by
  cases k <;>
    simp [set_config, currentConfig, _get_threadlocal_config,
      applyUpdate_at_other, applyUpdate_at_self]

theorem get_valid_param_or_default_of_valid (s : GlobalConfigParamSetting)
    (v : PyVal) (d : Option PyVal) (h : s.is_valid_param_value v = true) :
    s.get_valid_param_or_default v d = (v, 0) := by
  simp [GlobalConfigParamSetting.get_valid_param_or_default, h]

theorem get_valid_param_or_default_of_invalid (s : GlobalConfigParamSetting)
    (v : PyVal) (d : PyVal) (h : s.is_valid_param_value v = false) :
    s.get_valid_param_or_default v (some d) = (d, 1) := by
  simp [GlobalConfigParamSetting.get_valid_param_or_default, h]

/-- Claim C1: starting from a thread-local configuration whose current
`print_changed_only` is true, running the scoped context
`config_context(print_changed_only=False)` around any guarded body —
whether the body returns normally or an exception propagates out of it —
leaves the thread's current configuration (`get_config()`) with
`print_changed_only` true again after the scope exits: the `finally:`
block restores the configuration captured at entry on every exit path. -/
theorem C1_config_context_restores_under_exception (st : ConfigState)
    (lts : Bool) (body : ConfigState → ConfigState × Bool)
    (h : currentConfig st .print_changed_only = .bool true) :
    currentConfig (config_context_run st
        (singleUpdate .print_changed_only (.bool false)) lts body).1
      .print_changed_only = .bool true := by
  have hv : (CONFIG_REGISTRY .print_changed_only).is_valid_param_value
      (.bool true) = true := by decide
  simp only [config_context_run]
  rw [set_config_currentConfig_at]
  simp only [h]
  rw [get_valid_param_or_default_of_valid _ _ _ hv]

/-- Witness for C1 at a concrete input: the default configuration has
`print_changed_only = true`; a body that modifies the configuration and
then raises still sees it restored after the scope. -/
theorem C1_witness :
    currentConfig (⟨GLOBAL_CONFIG_DEFAULT, none⟩ : ConfigState)
      .print_changed_only = .bool true
    ∧ currentConfig (config_context_run ⟨GLOBAL_CONFIG_DEFAULT, none⟩
        (singleUpdate .print_changed_only (.bool false)) false
        (fun s =>
          ((set_config s (singleUpdate .display (.str "diagram")) false).1,
            true))).1 .print_changed_only = .bool true :=
  ⟨by decide,
    C1_config_context_restores_under_exception ⟨GLOBAL_CONFIG_DEFAULT, none⟩
      false
      (fun s =>
        ((set_config s (singleUpdate .display (.str "diagram")) false).1,
          true))
      (by decide)⟩

/-- Counterexample to claim C2.  The thread-local mapping differs from
the shared mapping on the unsupplied key `print_changed_only` (thread
value false, shared value true).  `set_config(display="diagram",
local_threadsafe=False)` then changes the shared mapping's
`print_changed_only` to false, although that key was not supplied: the
source runs `global_config.update(local_config)` with the entire
thread-local mapping, so unsupplied keys do not keep the prior shared
values. -/
theorem C2_counterexample :
    singleUpdate .display (.str "diagram") .print_changed_only = none
    ∧ (⟨GLOBAL_CONFIG_DEFAULT,
        some (Config.setKey GLOBAL_CONFIG_DEFAULT .print_changed_only
          (.bool false))⟩ : ConfigState).globalConfig
        .print_changed_only = .bool true
    ∧ (set_config
        ⟨GLOBAL_CONFIG_DEFAULT,
          some (Config.setKey GLOBAL_CONFIG_DEFAULT .print_changed_only
            (.bool false))⟩
        (singleUpdate .display (.str "diagram")) false).1.globalConfig
        .print_changed_only = .bool false := by
  decide

/-- Claim C2 as amended: with `local_threadsafe=False`, after the call
the shared mapping equals the calling thread's new thread-local mapping
(the whole local mapping is written into the shared one), and a key not
supplied in the call keeps its prior value only in the thread-local
mapping (so the shared mapping's unsupplied keys take the thread-local
values, not necessarily the values the shared mapping had before). -/
theorem C2_amended_shared_update (st : ConfigState)
    (upd : ConfigKey → Option PyVal) (k : ConfigKey) :
    (set_config st upd false).1.globalConfig k
      = currentConfig (set_config st upd false).1 k
    ∧ (upd k = none →
        currentConfig (set_config st upd false).1 k = currentConfig st k) := by
  constructor
  · simp [set_config, currentConfig, _get_threadlocal_config]
  · intro h
    rw [set_config_currentConfig_at, h]

/-- Witness for C2's amended claim at a concrete input, with the inner
hypothesis (the key is unsupplied) discharged. -/
theorem C2_amended_witness :
    (set_config ⟨GLOBAL_CONFIG_DEFAULT,
        some (Config.setKey GLOBAL_CONFIG_DEFAULT .print_changed_only
          (.bool false))⟩
      (singleUpdate .display (.str "diagram")) false).1.globalConfig
      .print_changed_only
      = currentConfig (set_config ⟨GLOBAL_CONFIG_DEFAULT,
          some (Config.setKey GLOBAL_CONFIG_DEFAULT .print_changed_only
            (.bool false))⟩
        (singleUpdate .display (.str "diagram")) false).1
        .print_changed_only
    ∧ currentConfig (set_config ⟨GLOBAL_CONFIG_DEFAULT,
          some (Config.setKey GLOBAL_CONFIG_DEFAULT .print_changed_only
            (.bool false))⟩
        (singleUpdate .display (.str "diagram")) false).1
        .print_changed_only
      = currentConfig ⟨GLOBAL_CONFIG_DEFAULT,
          some (Config.setKey GLOBAL_CONFIG_DEFAULT .print_changed_only
            (.bool false))⟩ .print_changed_only :=
  ⟨(C2_amended_shared_update ⟨GLOBAL_CONFIG_DEFAULT,
      some (Config.setKey GLOBAL_CONFIG_DEFAULT .print_changed_only
        (.bool false))⟩
      (singleUpdate .display (.str "diagram")) .print_changed_only).1,
    (C2_amended_shared_update ⟨GLOBAL_CONFIG_DEFAULT,
      some (Config.setKey GLOBAL_CONFIG_DEFAULT .print_changed_only
        (.bool false))⟩
      (singleUpdate .display (.str "diagram")) .print_changed_only).2
      (by decide)⟩

/-- Counterexample to claim C3.  A context entered with
`local_threadsafe=True` around a body that performs no configuration
writes and returns normally still rewrites the process-wide shared
mapping on exit: the shared mapping's `math_backend` is "numba" before
the context and "predictably" (the restored thread-local value)
afterwards, because the `finally:` block calls `set_config(**old_config)`
without forwarding `local_threadsafe`, so the restore runs with the
default `local_threadsafe=False`. -/
theorem C3_counterexample :
    (config_context_run
        ⟨Config.setKey GLOBAL_CONFIG_DEFAULT .math_backend (.str "numba"),
          some GLOBAL_CONFIG_DEFAULT⟩
        (singleUpdate .print_changed_only (.bool false)) true
        (fun s => (s, false))).1.globalConfig .math_backend
      = .str "predictably"
    ∧ (⟨Config.setKey GLOBAL_CONFIG_DEFAULT .math_backend (.str "numba"),
        some GLOBAL_CONFIG_DEFAULT⟩ : ConfigState).globalConfig
        .math_backend = .str "numba" := by
  decide

/-- Claim C3 as amended: the restoration on exit is
`set_config(**old_config)` with `local_threadsafe` left at its default
`False`, regardless of the flag passed at entry.  Consequently, for any
entry flag and any body, after the scope exits the shared mapping equals
the thread's restored local mapping at every key, and at every key whose
saved entry value is valid the restored current value is the value
captured at entry (so a context entered with `local_threadsafe=True`
does write the restored values into the process-wide shared mapping on
exit). -/
theorem C3_amended_restore_ignores_flag (st : ConfigState)
    (upd : ConfigKey → Option PyVal) (lts : Bool)
    (body : ConfigState → ConfigState × Bool) (k : ConfigKey)
    (h : (CONFIG_REGISTRY k).is_valid_param_value (currentConfig st k)
      = true) :
    (config_context_run st upd lts body).1.globalConfig k
      = currentConfig (config_context_run st upd lts body).1 k
    ∧ currentConfig (config_context_run st upd lts body).1 k
      = currentConfig st k := by
  constructor
  · simp only [config_context_run]
    simp [set_config, currentConfig, _get_threadlocal_config]
  · simp only [config_context_run]
    rw [set_config_currentConfig_at]
    simp only []
    rw [get_valid_param_or_default_of_valid _ _ _ h]

/-- Witness for C3's amended claim at a concrete input: a context
entered with `local_threadsafe=True` whose exit rewrites the shared
mapping back to the (valid) saved current value. -/
theorem C3_amended_witness :
    (config_context_run
        ⟨Config.setKey GLOBAL_CONFIG_DEFAULT .math_backend (.str "numba"),
          some GLOBAL_CONFIG_DEFAULT⟩
        (singleUpdate .print_changed_only (.bool false)) true
        (fun s => (s, false))).1.globalConfig .math_backend
      = currentConfig (config_context_run
          ⟨Config.setKey GLOBAL_CONFIG_DEFAULT .math_backend (.str "numba"),
            some GLOBAL_CONFIG_DEFAULT⟩
          (singleUpdate .print_changed_only (.bool false)) true
          (fun s => (s, false))).1 .math_backend
    ∧ currentConfig (config_context_run
          ⟨Config.setKey GLOBAL_CONFIG_DEFAULT .math_backend (.str "numba"),
            some GLOBAL_CONFIG_DEFAULT⟩
          (singleUpdate .print_changed_only (.bool false)) true
          (fun s => (s, false))).1 .math_backend
      = currentConfig
          ⟨Config.setKey GLOBAL_CONFIG_DEFAULT .math_backend (.str "numba"),
            some GLOBAL_CONFIG_DEFAULT⟩ .math_backend :=
  C3_amended_restore_ignores_flag
    ⟨Config.setKey GLOBAL_CONFIG_DEFAULT .math_backend (.str "numba"),
      some GLOBAL_CONFIG_DEFAULT⟩
    (singleUpdate .print_changed_only (.bool false)) true
    (fun s => (s, false)) .math_backend (by decide)

/-- The warnings emitted by `set_config` supplying a single key are
exactly the warnings of that key's validation. -/
theorem set_config_warnings_single (st : ConfigState) (k : ConfigKey)
    (v : PyVal) (lts : Bool) :
    (set_config st (singleUpdate k v) lts).2 =
      ((CONFIG_REGISTRY k).get_valid_param_or_default v
        (some (currentConfig st k))).2 := by
  cases k <;>
    simp [set_config, singleUpdate, applyUpdate, currentConfig,
      _get_threadlocal_config, Config.setKey]

/-- Claim C7: supplying a candidate value that fails a registered
parameter's validation leaves the calling thread's current value of that
parameter unchanged, emits exactly one warning, and never stores the
invalid value.  (The thread's prior stored value is assumed valid — the
registry invariant — which is what makes "unchanged" imply "the invalid
candidate is not stored".) -/
theorem C7_invalid_value_fallback (st : ConfigState) (k : ConfigKey)
    (v : PyVal) (lts : Bool)
    (hinv : (CONFIG_REGISTRY k).is_valid_param_value v = false)
    (hcur : (CONFIG_REGISTRY k).is_valid_param_value (currentConfig st k)
      = true) :
    currentConfig (set_config st (singleUpdate k v) lts).1 k
      = currentConfig st k
    ∧ (set_config st (singleUpdate k v) lts).2 = 1
    ∧ currentConfig (set_config st (singleUpdate k v) lts).1 k ≠ v := by
  have hupd : singleUpdate k v k = some v := by simp [singleUpdate]
  have hcc : currentConfig (set_config st (singleUpdate k v) lts).1 k
      = currentConfig st k := by
    rw [set_config_currentConfig_at, hupd]
    simp only []
    rw [get_valid_param_or_default_of_invalid _ _ _ hinv]
  refine ⟨hcc, ?_, ?_⟩
  · rw [set_config_warnings_single,
      get_valid_param_or_default_of_invalid _ _ _ hinv]
  · rw [hcc]
    intro heq
    rw [heq, hinv] at hcur
    exact Bool.false_ne_true hcur

/-- Witness for C7 at the claim's own example: `set_config` offered the
string "False" for the boolean parameter `print_changed_only` from the
default configuration. -/
theorem C7_witness :
    currentConfig (set_config ⟨GLOBAL_CONFIG_DEFAULT, none⟩
        (singleUpdate .print_changed_only (.str "False")) false).1
      .print_changed_only
      = currentConfig (⟨GLOBAL_CONFIG_DEFAULT, none⟩ : ConfigState)
        .print_changed_only
    ∧ (set_config ⟨GLOBAL_CONFIG_DEFAULT, none⟩
        (singleUpdate .print_changed_only (.str "False")) false).2 = 1
    ∧ currentConfig (set_config ⟨GLOBAL_CONFIG_DEFAULT, none⟩
        (singleUpdate .print_changed_only (.str "False")) false).1
      .print_changed_only ≠ .str "False" :=
  C7_invalid_value_fallback ⟨GLOBAL_CONFIG_DEFAULT, none⟩
    .print_changed_only (.str "False") false (by decide) (by decide)

theorem lookupA_setA (d : List (String × Val)) (k : String) (v : Val)
    (k' : String) :
    lookupA (setA d k v) k' = if k' = k then some v else lookupA d k' := by
  induction d with
  | nil =>
      by_cases h : k' = k
      · subst h; simp [setA, lookupA]
      · simp [setA, lookupA, h, Ne.symm h]
  | cons kv rest ih =>
      obtain ⟨a, b⟩ := kv
      by_cases h1 : a = k
      · subst h1
        by_cases h2 : a = k'
        · subst h2; simp [setA, lookupA]
        · simp [setA, lookupA, h2, Ne.symm h2]
      · by_cases h2 : a = k'
        · subst h2
          simp [setA, lookupA, h1, Ne.symm h1]
        · simp [setA, lookupA, h1, h2, ih]

theorem lookupA_append (l1 l2 : List (String × Val)) (k : String) :
    lookupA (l1 ++ l2) k = orElseO (lookupA l1 k) (lookupA l2 k) := by
  induction l1 with
  | nil => simp [lookupA, orElseO]
  | cons kv rest ih =>
      obtain ⟨a, b⟩ := kv
      by_cases h : a = k <;> simp [lookupA, h, ih, orElseO]

theorem lookupLast_cons (kv : String × Val) (rest : List (String × Val))
    (k : String) :
    lookupLast (kv :: rest) k
      = orElseO (lookupLast rest k)
          (if kv.1 = k then some kv.2 else none) := by
  obtain ⟨a, b⟩ := kv
  simp only [lookupLast, List.reverse_cons, lookupA_append]
  by_cases h : a = k <;> simp [lookupA, h]

theorem lookupA_updateDict (d2 d1 : List (String × Val)) (k : String) :
    lookupA (updateDict d1 d2) k
      = orElseO (lookupLast d2 k) (lookupA d1 k) := by
  induction d2 generalizing d1 with
  | nil => simp [updateDict, lookupLast, lookupA, orElseO]
  | cons kv rest ih =>
      have h1 : updateDict d1 (kv :: rest)
          = updateDict (setA d1 kv.1 kv.2) rest := rfl
      rw [h1, ih, lookupLast_cons, lookupA_setA]
      cases hl : lookupLast rest k
      · by_cases h : kv.1 = k
        · rw [if_pos h, if_pos h.symm]
          simp [orElseO]
        · rw [if_neg h, if_neg (Ne.symm h)]
          simp [orElseO]
      · simp [orElseO]

theorem findSome?_cons_orElseO (f : List (String × Val) → Option Val)
    (d : List (String × Val)) (chain : List (List (String × Val))) :
    (d :: chain).findSome? f = orElseO (f d) (chain.findSome? f) := by
  cases h : f d <;> simp [List.findSome?_cons, h, orElseO]

/-- The merged class flags of an inheritance chain, looked up at one
flag name: the value comes from the most-derived class in the chain that
declares the flag (derived entries overwrite ancestral entries). -/
theorem lookupA_get_class_flags (chain : List (List (String × Val)))
    (k : String) :
    lookupA (_get_class_flags chain) k
      = chain.reverse.findSome? (fun d => lookupLast d k) := by
  induction chain using List.reverseRecOn with
  | nil => simp [_get_class_flags, lookupA]
  | append_singleton init d ih =>
      have h1 : _get_class_flags (init ++ [d])
          = updateDict (_get_class_flags init) d := by
        simp [_get_class_flags, List.foldl_append]
      rw [h1, lookupA_updateDict, ih, List.reverse_append]
      simp [findSome?_cons_orElseO]

/-- Claim C6: the merged class-level flag mapping walks the inheritance
chain from most-ancestral to most-derived with derived entries
overwriting ancestral ones (general part: the merged lookup equals the
first hit scanning the chain from the derived end); in particular, for a
parent declaring tags A=1, B=2 under a root declaring no tags and a
child declaring A=42, the child's merged class tags are A=42, B=2. -/
theorem C6_class_flag_inheritance :
    (∀ (chain : List (List (String × Val))) (k : String),
        lookupA (_get_class_flags chain) k
          = chain.reverse.findSome? (fun d => lookupLast d k))
    ∧ _get_class_flags
        [[], [("A", .int 1), ("B", .int 2)], [("A", .int 42)]]
        = [("A", .int 42), ("B", .int 2)] :=
  ⟨lookupA_get_class_flags, by decide⟩

theorem storeGet_storeSet (s : Store) (a : Nat) (o : PyObject) :
    storeGet (storeSet s a o) a = some o := by
  induction s with
  | nil => simp [storeSet, storeGet]
  | cons ao rest ih =>
      obtain ⟨a', o'⟩ := ao
      by_cases h : a' = a
      · subst h; simp [storeSet, storeGet]
      · simp [storeSet, storeGet, h, ih]

theorem collectParams_single (attrs : List (String × Val)) (n : String)
    (P : List (String × Val)) (h : collectParams attrs [n] = some P) :
    ∃ v, lookupA attrs n = some v ∧ P = [(n, v)] := by
  cases hv : lookupA attrs n with
  | none => simp [collectParams, hv] at h
  | some v =>
      refine ⟨v, rfl, ?_⟩
      simp [collectParams, hv] at h
      exact h.symm

/-- Claim C4: for any object with declared parameters `P` (read as
`get_params(deep=False)`), `reset()` rebuilds the object in place as the
freshly constructed `type(x)(**P)` with the double-underscore-named
instance attributes appended back: afterwards `get_params(deep=False)`
still yields `P`, and every remaining instance attribute is either a
declared parameter or has a name containing the `"__"` substring (the
bookkeeping fields `_tags_dynamic`, `_config_dynamic`, `_is_fitted` are
reinitialised to their fresh-construction values). -/
theorem C4_reset_to_constructed_state (store : Store) (a : Nat)
    (o : PyObject) (P : List (String × Val))
    (ho : storeGet store a = some o)
    (hP : getParamsShallow store a = some P) :
    resetObj store a = some (storeSet store a
      ⟨(mkInit o.cls P).cls,
        (mkInit o.cls P).attrs
          ++ o.attrs.filter (fun kv => containsDunder kv.1),
        (mkInit o.cls P).tagsDynamic, (mkInit o.cls P).configDynamic,
        (mkInit o.cls P).isFitted⟩)
    ∧ getParamsShallow (storeSet store a
        ⟨o.cls, P ++ o.attrs.filter (fun kv => containsDunder kv.1),
          [], [], false⟩) a = some P
    ∧ ∀ kv ∈ P ++ o.attrs.filter (fun kv => containsDunder kv.1),
        kv.1 ∈ declaredParams o.cls ∨ containsDunder kv.1 = true := by
  have hcoll : collectParams o.attrs (declaredParams o.cls) = some P := by
    rw [getParamsShallow, ho] at hP
    exact hP
  refine ⟨?_, ?_, ?_⟩
  · rw [resetObj, ho, hP]
  · obtain ⟨c, oattrs, td, cd, fi⟩ := o
    cases c <;>
      · simp only [declaredParams] at hcoll ⊢
        obtain ⟨v, hv, hPv⟩ := collectParams_single _ _ _ hcoll
        subst hPv
        simp [getParamsShallow, storeGet_storeSet, declaredParams,
          collectParams, lookupA]
  · intro kv hkv
    rcases List.mem_append.mp hkv with hl | hr
    · left
      obtain ⟨c, oattrs, td, cd, fi⟩ := o
      cases c <;>
        · simp only [declaredParams] at hcoll ⊢
          obtain ⟨v, hv, hPv⟩ := collectParams_single _ _ _ hcoll
          subst hPv
          simp only [List.mem_singleton] at hl
          subst hl
          simp
    · right
      exact (List.mem_filter.mp hr).2

/-- Witness for C4 at a concrete input: an estimator with a derived
attribute `cache`, a protected attribute `a__b`, a dynamic tag override
and a set fitted flag; `reset()` keeps the parameter `foo`, keeps
`a__b`, and drops everything else. -/
theorem C4_witness :
    resetObj
        [(0, ⟨.est,
          [("foo", .int 1), ("cache", .int 7), ("a__b", .int 3)],
          [("t", .int 1)], [], true⟩)] 0
      = some (storeSet
          [(0, ⟨.est,
            [("foo", .int 1), ("cache", .int 7), ("a__b", .int 3)],
            [("t", .int 1)], [], true⟩)] 0
          ⟨(mkInit .est [("foo", .int 1)]).cls,
            (mkInit .est [("foo", .int 1)]).attrs
              ++ List.filter (fun kv => containsDunder kv.1)
                [("foo", .int 1), ("cache", .int 7), ("a__b", .int 3)],
            (mkInit .est [("foo", .int 1)]).tagsDynamic,
            (mkInit .est [("foo", .int 1)]).configDynamic,
            (mkInit .est [("foo", .int 1)]).isFitted⟩)
    ∧ getParamsShallow (storeSet
        [(0, ⟨.est,
          [("foo", .int 1), ("cache", .int 7), ("a__b", .int 3)],
          [("t", .int 1)], [], true⟩)] 0
        ⟨.est, [("foo", .int 1)]
            ++ List.filter (fun kv => containsDunder kv.1)
              [("foo", .int 1), ("cache", .int 7), ("a__b", .int 3)],
          [], [], false⟩) 0 = some [("foo", .int 1)] :=
  ⟨(C4_reset_to_constructed_state
      [(0, ⟨.est,
        [("foo", .int 1), ("cache", .int 7), ("a__b", .int 3)],
        [("t", .int 1)], [], true⟩)] 0
      ⟨.est, [("foo", .int 1), ("cache", .int 7), ("a__b", .int 3)],
        [("t", .int 1)], [], true⟩
      [("foo", .int 1)] (by decide) (by decide)).1,
    (C4_reset_to_constructed_state
      [(0, ⟨.est,
        [("foo", .int 1), ("cache", .int 7), ("a__b", .int 3)],
        [("t", .int 1)], [], true⟩)] 0
      ⟨.est, [("foo", .int 1), ("cache", .int 7), ("a__b", .int 3)],
        [("t", .int 1)], [], true⟩
      [("foo", .int 1)] (by decide) (by decide)).2.1⟩

/-- Claim C5: for the composite `Outer(inner=Inner(x=5))` (the outer
object at address 0 holding a reference to the inner object at address
1), `get_params(deep=True)` contains both the unflattened entry
`inner -> <component>` and the flattened entry `inner__x -> 5`; after
`set_params(inner__x=9)` the call succeeds, the outer object's `inner`
parameter is still the same object (the same address 1, not a
replacement), and that inner object's `x` attribute is now 9. -/
theorem C5_deep_flattening_roundtrip :
    getParamsShallow
        [(0, mkInit .outer [("inner", .obj 1)]),
          (1, mkInit .inner [("x", .int 5)])] 0
      = some [("inner", .obj 1)]
    ∧ getParamsDeep 3
        [(0, mkInit .outer [("inner", .obj 1)]),
          (1, mkInit .inner [("x", .int 5)])] 0
      = some [("inner", .obj 1), ("inner__x", .int 5)]
    ∧ (set_params 3
        [(0, mkInit .outer [("inner", .obj 1)]),
          (1, mkInit .inner [("x", .int 5)])] 0
        [("inner__x", .int 9)]).2 = none
    ∧ getParamsShallow (set_params 3
        [(0, mkInit .outer [("inner", .obj 1)]),
          (1, mkInit .inner [("x", .int 5)])] 0
        [("inner__x", .int 9)]).1 0 = some [("inner", .obj 1)]
    ∧ (storeGet (set_params 3
        [(0, mkInit .outer [("inner", .obj 1)]),
          (1, mkInit .inner [("x", .int 5)])] 0
        [("inner__x", .int 9)]).1 1).map (fun o => lookupA o.attrs "x")
      = some (some (.int 9)) := by
  decide

/-- Claim C8: `set_params` given a key whose head (before the first
`"__"`) is not among the keys of a fresh `get_params(deep=True)` raises
the unknown-parameter `ValueError` naming the offending key and the
target instance, and — the update mapping containing only that unknown
key — leaves the store (hence `get_params`) unchanged. -/
theorem C8_unknown_parameter_rejection (fuel : Nat) (store : Store)
    (a : Nat) (k : String) (v : Val) (valid : List (String × Val))
    (hvalid : getParamsDeep (fuel + 1) store a = some valid)
    (hmiss : lookupA valid (partitionDunder k).1 = none) :
    set_params (fuel + 1) store a [(k, v)]
      = (store, some (invalidParamMsg (partitionDunder k).1 a)) := by
  simp [set_params, hvalid, setParamsLoop, hmiss]

/-- Witness for C8 at the claim's own example: `totally_unknown_param`
on an estimator `Est(foo=1)`. -/
theorem C8_witness :
    set_params 2 [(0, mkInit .est [("foo", .int 1)])] 0
        [("totally_unknown_param", .int 1)]
      = ([(0, mkInit .est [("foo", .int 1)])],
          some (invalidParamMsg "totally_unknown_param" 0)) :=
  C8_unknown_parameter_rejection 1 [(0, mkInit .est [("foo", .int 1)])] 0
    "totally_unknown_param" (.int 1) [("foo", .int 1)] (by decide)
    (by decide)

/-- Claim C10: `set_params` is not atomic for multi-key updates — for
the estimator `Est(foo=1)` and the update mapping with the valid plain
key `foo` followed by the unknown key `nope`, the call raises the
unknown-parameter error, yet the earlier direct assignment `foo := 2`
has already been applied, so `get_params` after the failed call differs
from its value before the call. -/
theorem C10_set_params_not_atomic :
    getParamsShallow [(0, mkInit .est [("foo", .int 1)])] 0
      = some [("foo", .int 1)]
    ∧ (set_params 2 [(0, mkInit .est [("foo", .int 1)])] 0
        [("foo", .int 2), ("nope", .int 3)]).2
      = some (invalidParamMsg "nope" 0)
    ∧ getParamsShallow (set_params 2 [(0, mkInit .est [("foo", .int 1)])] 0
        [("foo", .int 2), ("nope", .int 3)]).1 0
      = some [("foo", .int 2)] := by
  decide

/-- Counterexample to claim C9.  Two estimators `Est(foo=1)` whose deep
parameters agree, where one has received a dynamic tag override via
`_set_tags(A=1)`: `get_params(deep=True)` is equal on both, yet the
attrs-generated `__eq__` returns false, because `_tags_dynamic` and
`_config_dynamic` are attrs fields with the default `eq=True` and so
participate in equality — equality is not derived solely from
declared-parameter values, and "equals iff deep params equal" fails. -/
theorem C9_counterexample :
    getParamsDeep 2
        (setTagsStore [(0, mkInit .est [("foo", .int 1)]),
          (1, mkInit .est [("foo", .int 1)])] 0 [("A", .int 1)]) 0
      = getParamsDeep 2
          (setTagsStore [(0, mkInit .est [("foo", .int 1)]),
            (1, mkInit .est [("foo", .int 1)])] 0 [("A", .int 1)]) 1
    ∧ objEq 2
        (setTagsStore [(0, mkInit .est [("foo", .int 1)]),
          (1, mkInit .est [("foo", .int 1)])] 0 [("A", .int 1)]) 0 1
      = false := by
  decide

/-- Claim C9 as amended: for two estimators of the same concrete class,
the attrs-generated equality compares the declared parameter values
together with the dynamic tag and config override mappings, and nothing
else — it is independent of the `_is_fitted` flag (declared `eq=False`)
and of derived instance attributes, so equality is unaffected by a
mutating fit operation, but objects with equal deep parameters are equal
only when their dynamic overrides also agree.  In particular
`Est(foo=1)` equals `Est(foo=1)` after fitting one of them. -/
theorem C9_amended_equality_from_fields (fa fb : Int)
    (ea eb ta tb ca cb : List (String × Val)) (fia fib : Bool) :
    objEq 2 [(0, ⟨.est, ("foo", .int fa) :: ea, ta, ca, fia⟩),
        (1, ⟨.est, ("foo", .int fb) :: eb, tb, cb, fib⟩)] 0 1
      = ((fa == fb)
          && dictEq 1 [(0, ⟨.est, ("foo", .int fa) :: ea, ta, ca, fia⟩),
              (1, ⟨.est, ("foo", .int fb) :: eb, tb, cb, fib⟩)] ta tb
          && dictEq 1 [(0, ⟨.est, ("foo", .int fa) :: ea, ta, ca, fia⟩),
              (1, ⟨.est, ("foo", .int fb) :: eb, tb, cb, fib⟩)] ca cb)
    ∧ ((getParamsDeep 2 [(0, ⟨.est, ("foo", .int fa) :: ea, ta, ca, fia⟩),
          (1, ⟨.est, ("foo", .int fb) :: eb, tb, cb, fib⟩)] 0
        = getParamsDeep 2
            [(0, ⟨.est, ("foo", .int fa) :: ea, ta, ca, fia⟩),
              (1, ⟨.est, ("foo", .int fb) :: eb, tb, cb, fib⟩)] 1)
        ↔ fa = fb)
    ∧ objEq 2 (fitEst [(0, mkInit .est [("foo", .int 1)]),
        (1, mkInit .est [("foo", .int 1)])] 0) 0 1 = true := by
  refine ⟨?_, ?_, by decide⟩
  · simp [objEq, valEq, storeGet, declaredParams, lookupA, dictEq]
  · simp [getParamsDeep, getParamsShallow, storeGet, declaredParams,
      collectParams, lookupA, updateDict]

end Predictably
